import Mathlib

/-!
Shallow embedding of the core of the trading system repository and proofs of
the specification claims about it.  The embedded components are: the
confluence matrix and analyzer (calculated_market), the circuit breaker
system and risk manager gates, the per-pattern cooldown filter, the signal
processor pipeline with its defensive stage, the adaptive regime system,
the in-memory trade cache, the contextual risk evaluator, and the
institutional-footprint confirmation check.  Machine times are modelled as
natural numbers of seconds; Python floats are modelled as rationals.
-/

/-- Embedding of the Python str.upper conversion for the ASCII pattern and
direction names handled by the system. -/
def ascii_upper (s : String) : String :=
  String.mk (s.data.map Char.toUpper)

namespace Confluence

/-- Embedding of a confluence rule from confluence_matrix.py: an action
(COMPRA or VENDA) together with its configured confidence. -/
structure Rule where
  acao : String
  confianca : ℚ
  deriving DecidableEq, Repr

/-- Embedding of a calculated level entry of the daily grid: the level name
and its price.  Only the fields used by the confluence analysis are kept. -/
structure CalculatedLevel where
  name : String
  price : ℚ
  deriving DecidableEq, Repr

/-- Configuration of ConfluenceMatrix (confluence_matrix.py, constructor):
extreme_force_threshold default 9, minimum_force default 7,
minimum_confidence default 0.65; plus tolerancia_proximidade default 3.0
from CalculatedMarketAnalyzer. -/
structure Config where
  tolerancia_proximidade : ℚ
  extreme_force_threshold : ℕ
  minimum_force : ℕ
  minimum_confidence : ℚ
  deriving Repr

/-- Default configuration values of the analyzer and matrix. -/
def default_config : Config :=
  { tolerancia_proximidade := 3
    extreme_force_threshold := 9
    minimum_force := 7
    minimum_confidence := 65/100 }

/-- Embedding of CalculatedMarketAnalyzer.check_proximity: the first level
of the grid whose price is within tolerancia_proximidade of the given
price.  The grid is a list in dictionary insertion order. -/
def check_proximity (tol : ℚ) (levels : List CalculatedLevel) (price : ℚ) :
    Option CalculatedLevel :=
  levels.find? (fun l => decide (|price - l.price| ≤ tol))

/-- Embedding of ConfluenceMatrix.find_rule: look the (pattern, level) pair
up in the rule table; when the candidate carries a non-empty direction the
rule only matches if its action agrees with that direction. -/
def find_rule (rules : List ((String × String) × Rule))
    (pattern_name level_name signal_direction : String) : Option Rule :=
  match List.lookup (pattern_name, level_name) rules with
  | none => none
  | some r =>
    if signal_direction ≠ "" ∧ ascii_upper r.acao ≠ ascii_upper signal_direction then
      none
    else
      some r

/-- Embedding of ConfluenceMatrix.check_extreme_conditions: strength at or
above extreme_force_threshold at level SOFRER_2X synthesizes a VENDA rule
with confidence 0.85, and at SOFGRE a COMPRA rule with confidence 0.85. -/
def check_extreme_conditions (cfg : Config) (strength : ℕ)
    (level_name : String) : Option Rule :=
  if cfg.extreme_force_threshold ≤ strength then
    if level_name = "SOFRER_2X" then some { acao := "VENDA", confianca := 85/100 }
    else if level_name = "SOFGRE" then some { acao := "COMPRA", confianca := 85/100 }
    else none
  else none

/-- Embedding of ConfluenceMatrix.is_valid_signal: a rule must exist, the
strength must reach minimum_force and the rule confidence must reach
minimum_confidence. -/
def is_valid_signal (cfg : Config) (rule : Option Rule) (strength : ℕ) : Bool :=
  match rule with
  | none => false
  | some r =>
    decide (cfg.minimum_force ≤ strength) && decide (cfg.minimum_confidence ≤ r.confianca)

/-- Embedding of CalculatedMarketAnalyzer._normalize_pattern_name: empty
pattern becomes UNKNOWN, otherwise the name is uppercased. -/
def normalize_pattern_name (pattern : String) : String :=
  if pattern = "" then "UNKNOWN" else ascii_upper pattern

/-- Default PTAX windows of _parse_ptax_windows, as closed intervals of
seconds of day: 10:00-10:10, 11:00-11:10, 12:00-12:10, 13:00-13:10. -/
def default_ptax_windows : List (ℕ × ℕ) :=
  [(36000, 36600), (39600, 40200), (43200, 43800), (46800, 47400)]

/-- Embedding of CalculatedMarketAnalyzer.is_ptax_window: the timestamp
time-of-day (seconds since midnight) lies in one of the windows, bounds
inclusive. -/
def is_ptax_window (windows : List (ℕ × ℕ)) (tod : ℕ) : Bool :=
  windows.any (fun w => decide (w.1 ≤ tod) && decide (tod ≤ w.2))

/-- Embedding of the confidence adjustment inside
CalculatedMarketAnalyzer._create_confluence_signal: inside a PTAX window
the confidence gains 0.1, capped at 0.95; otherwise it is unchanged. -/
def apply_ptax_bonus (is_ptax : Bool) (confidence : ℚ) : ℚ :=
  if is_ptax then min (confidence + 1/10) (95/100) else confidence

/-- Result of a successful confluence analysis; rule_confidence is the
configured confidence of the applied rule before the PTAX bonus and
confidence the value carried by the emitted signal. -/
structure ConfluenceSignal where
  level_name : String
  level_price : ℚ
  action : String
  rule_confidence : ℚ
  confidence : ℚ
  strength : ℕ
  is_ptax : Bool
  deriving DecidableEq, Repr

/-- Validity gate plus signal construction of analyze_confluence and
_create_confluence_signal, for an already resolved rule. -/
def build_signal (cfg : Config) (windows : List (ℕ × ℕ)) (tod : ℕ)
    (lvl : CalculatedLevel) (strength : ℕ) (rule : Option Rule) :
    Option ConfluenceSignal :=
  if is_valid_signal cfg rule strength then
    match rule with
    | some r =>
      some { level_name := lvl.name
             level_price := lvl.price
             action := r.acao
             rule_confidence := r.confianca
             confidence := apply_ptax_bonus (is_ptax_window windows tod) r.confianca
             strength := strength
             is_ptax := is_ptax_window windows tod }
    | none => none
  else none

/-- Embedding of CalculatedMarketAnalyzer.analyze_confluence composed with
_create_confluence_signal: proximity check, rule lookup with extreme-force
fallback, validity gates, then signal construction with the PTAX bonus. -/
def analyze_confluence (cfg : Config) (rules : List ((String × String) × Rule))
    (levels : List CalculatedLevel) (windows : List (ℕ × ℕ))
    (pattern : String) (price : ℚ) (strength : ℕ)
    (direction : String) (tod : ℕ) : Option ConfluenceSignal :=
  match check_proximity cfg.tolerancia_proximidade levels price with
  | none => none
  | some lvl =>
    build_signal cfg windows tod lvl strength
      (match find_rule rules (normalize_pattern_name pattern) lvl.name direction with
       | some r => some r
       | none => check_extreme_conditions cfg strength lvl.name)

end Confluence

/-- Embedding of the Python timedelta attribute named seconds, as used by
circuit_breaker.check_all and cooldown.can_emit_pattern on a difference of
two datetimes: whole days of the elapsed time are discarded.  Times are
naturals counting seconds, with now at or after the earlier instant. -/
def py_timedelta_seconds (now earlier : ℕ) : ℕ :=
  (now - earlier) % 86400

namespace Risk

/-- Embedding of the RiskLevel enum of risk/types.py. -/
inductive RiskLevel where
  | LOW
  | MEDIUM
  | HIGH
  | CRITICAL
  deriving DecidableEq, Repr

/-- Embedding of the per-breaker state of CircuitBreakerSystem: the reason
string is irrelevant to the claims and omitted. -/
structure BreakerState where
  active : Bool
  triggered_at : Option ℕ
  cooldown_seconds : ℕ
  deriving DecidableEq, Repr

/-- The six breakers built in the CircuitBreakerSystem constructor with the
default cooldown of 300 seconds, 60 for exposure. -/
def initial_breakers : List (String × BreakerState) :=
  [("frequency", ⟨false, none, 300⟩),
   ("quality", ⟨false, none, 300⟩),
   ("drawdown", ⟨false, none, 300⟩),
   ("consecutive_losses", ⟨false, none, 300⟩),
   ("emergency", ⟨false, none, 300⟩),
   ("exposure", ⟨false, none, 60⟩)]

/-- Embedding of CircuitBreakerSystem.trigger: an inactive breaker with the
given name becomes active with the current time recorded. -/
def trigger (breakers : List (String × BreakerState)) (name : String)
    (now : ℕ) : List (String × BreakerState) :=
  breakers.map (fun nb =>
    if nb.1 = name && !nb.2.active then
      (nb.1, { active := true, triggered_at := some now,
               cooldown_seconds := nb.2.cooldown_seconds })
    else nb)

/-- Examination of a single breaker inside check_all: an inactive breaker is
clear; an active breaker whose day-truncated elapsed time is below its
cooldown blocks; an active breaker past its cooldown is reset and clear. -/
def check_one (now : ℕ) (st : BreakerState) : Bool × BreakerState :=
  if st.active then
    match st.triggered_at with
    | some t =>
      if py_timedelta_seconds now t < st.cooldown_seconds then
        (false, st)
      else
        (true, { active := false, triggered_at := none,
                 cooldown_seconds := st.cooldown_seconds })
    | none => (false, st)
  else (true, st)

/-- Result of CircuitBreakerSystem.check_all: the all_clear flag and the
updated breaker table. -/
structure CheckResult where
  all_clear : Bool
  breakers : List (String × BreakerState)
  deriving DecidableEq, Repr

/-- Embedding of CircuitBreakerSystem.check_all. -/
def check_all (now : ℕ) (breakers : List (String × BreakerState)) : CheckResult :=
  { all_clear := (breakers.map (fun nb => (check_one now nb.2).1)).all id
    breakers := breakers.map (fun nb => (nb.1, (check_one now nb.2).2)) }

/-- Outcome of an evaluate_signal run, restricted to the fields the claims
inspect: approval, the assessed risk level, and whether a SIGNAL_APPROVED
event was published. -/
structure EvalResult where
  approved : Bool
  risk_level : RiskLevel
  published_approved : Bool
  deriving DecidableEq, Repr

/-- Embedding of step 1 of RiskManager.evaluate_signal: when check_all does
not report all clear the signal is rejected with CRITICAL risk and the
method returns before any SIGNAL_APPROVED publication; otherwise evaluation
continues with the later stages, whose combined outcome is the rest
argument. -/
def evaluate_signal_breaker_gate (now : ℕ)
    (breakers : List (String × BreakerState)) (rest : EvalResult) : EvalResult :=
  if (check_all now breakers).all_clear then rest
  else { approved := false, risk_level := RiskLevel.CRITICAL,
         published_approved := false }

end Risk

namespace Cooldown

/-- Embedding of the PatternCooldown state: the per-key timestamp of the
last passed check and the per-key blocked counters.  Keys are the strings
symbol_pattern, kept as association lists in dictionary order. -/
structure State where
  last_pattern_time : List (String × ℕ)
  blocked_count : List (String × ℕ)
  deriving DecidableEq, Repr

/-- Fresh PatternCooldown state. -/
def initial : State := { last_pattern_time := [], blocked_count := [] }

/-- Key construction of can_emit_pattern. -/
def key (symbol pattern : String) : String :=
  symbol ++ "_" ++ pattern

/-- Embedding of the cooldown lookup: the per-pattern value, else the value
under the key named default, else 30. -/
def cooldown_for (cfg : List (String × ℕ)) (pattern : String) : ℕ :=
  (List.lookup pattern cfg).getD ((List.lookup "default" cfg).getD 30)

/-- Dictionary update on an association list: an existing key keeps its
position, a new key is appended. -/
def set_assoc : List (String × ℕ) → String → ℕ → List (String × ℕ)
  | [], k, v => [(k, v)]
  | (k0, v0) :: rest, k, v =>
    if k0 = k then (k0, v) :: rest else (k0, v0) :: set_assoc rest k v

/-- Embedding of PatternCooldown.can_emit_pattern: a key never seen passes
and records the time; otherwise the check passes exactly when the
day-truncated elapsed time since the recorded time reaches the cooldown, in
which case the time is re-recorded; a failed check increments the blocked
counter. -/
def can_emit_pattern (cfg : List (String × ℕ)) (s : State)
    (pattern symbol : String) (now : ℕ) : Bool × State :=
  match List.lookup (key symbol pattern) s.last_pattern_time with
  | none =>
    (true, { s with last_pattern_time := set_assoc s.last_pattern_time (key symbol pattern) now })
  | some last =>
    if cooldown_for cfg pattern ≤ py_timedelta_seconds now last then
      (true, { s with last_pattern_time := set_assoc s.last_pattern_time (key symbol pattern) now })
    else
      (false, { s with blocked_count := set_assoc s.blocked_count (key symbol pattern) ((List.lookup (key symbol pattern) s.blocked_count).getD 0 + 1) })

end Cooldown

namespace SignalProc

/-- Per-candidate outcome of the SignalProcessor pipeline. -/
inductive Outcome where
  | dropped_quality
  | sent_to_confirmation
  | dropped_cooldown
  | emitted
  | manipulation
  deriving DecidableEq, Repr

/-- A raw candidate as seen by SignalProcessor.process_raw_signals.  The
verdicts of the collaborator filters, which are pure functions of data not
touched by the processor, enter the embedding as fields: quality_passed is
the verdict of quality_filter.evaluate_signal_quality, requires_conf the
verdict of pattern_confirmation_system.requires_confirmation, and safe the
verdict of defensive_filter.is_signal_safe on the current book and recent
trades. -/
structure Candidate where
  time : ℕ
  symbol : String
  pattern : String
  quality_passed : Bool
  requires_conf : Bool
  safe : Bool
  deriving DecidableEq, Repr

/-- Events produced for one candidate, plus the cooldown state after it:
generated holds the candidates put on the SIGNAL_GENERATED display path and
manipulation_events those published as MANIPULATION_DETECTED. -/
structure StepResult where
  outcome : Outcome
  generated : List Candidate
  manipulation_events : List Candidate
  state : Cooldown.State
  deriving DecidableEq, Repr

/-- Embedding of the per-candidate control flow of
SignalProcessor.process_raw_signals: the quality filter drops first, a
pattern requiring confirmation is parked with no event, the cooldown filter
drops silently, and a candidate reaching the defensive filter is either
emitted or published as MANIPULATION_DETECTED. -/
def process_one (cfg : List (String × ℕ)) (s : Cooldown.State)
    (c : Candidate) : StepResult :=
  if !c.quality_passed then
    { outcome := Outcome.dropped_quality, generated := [],
      manipulation_events := [], state := s }
  else if c.requires_conf then
    { outcome := Outcome.sent_to_confirmation, generated := [],
      manipulation_events := [], state := s }
  else
    match Cooldown.can_emit_pattern cfg s c.pattern c.symbol c.time with
    | (false, s1) =>
      { outcome := Outcome.dropped_cooldown, generated := [],
        manipulation_events := [], state := s1 }
    | (true, s1) =>
      if c.safe then
        { outcome := Outcome.emitted, generated := [c],
          manipulation_events := [], state := s1 }
      else
        { outcome := Outcome.manipulation, generated := [],
          manipulation_events := [c], state := s1 }

/-- Embedding of the loop of process_raw_signals: candidates are processed
in order through the shared cooldown state; the trace records each
candidate with its outcome. -/
def process_trace (cfg : List (String × ℕ)) :
    Cooldown.State → List Candidate → List (Candidate × Outcome)
  | _, [] => []
  | s, c :: cs =>
    let r := process_one cfg s c
    (c, r.outcome) :: process_trace cfg r.state cs

/-- Cooldown state left after processing a list of candidates. -/
def process_state (cfg : List (String × ℕ)) :
    Cooldown.State → List Candidate → Cooldown.State
  | s, [] => s
  | s, c :: cs => process_state cfg (process_one cfg s c).state cs

/-- Times of the SIGNAL_GENERATED emissions for one (symbol, pattern) pair
along a processing trace. -/
def emission_times (cfg : List (String × ℕ)) (symbol pattern : String)
    (s : Cooldown.State) (cs : List Candidate) : List ℕ :=
  ((process_trace cfg s cs).filter (fun p =>
      decide (p.2 = Outcome.emitted) && decide (p.1.symbol = symbol) &&
      decide (p.1.pattern = pattern))).map (fun p => p.1.time)

/-- Embedding of PatternConfirmationSystem._emit_confirmed_pattern for a
confirmed pending pattern: the cooldown filter may silently drop it, and
otherwise the defensive filter decides between one SIGNAL_GENERATED and one
MANIPULATION_DETECTED event.  The quality_passed and requires_conf fields
of the candidate are not consulted on this path. -/
def emit_confirmed_pattern (cfg : List (String × ℕ)) (s : Cooldown.State)
    (c : Candidate) : StepResult :=
  match Cooldown.can_emit_pattern cfg s c.pattern c.symbol c.time with
  | (false, s1) =>
    { outcome := Outcome.dropped_cooldown, generated := [],
      manipulation_events := [], state := s1 }
  | (true, s1) =>
    if c.safe then
      { outcome := Outcome.emitted, generated := [c],
        manipulation_events := [], state := s1 }
    else
      { outcome := Outcome.manipulation, generated := [],
        manipulation_events := [c], state := s1 }

/-- A candidate reaches the defensive filter stage exactly when it passes
the quality filter, does not require confirmation, and passes the cooldown
check against the state it is processed in. -/
def reaches_defensive (cfg : List (String × ℕ)) (s : Cooldown.State)
    (c : Candidate) : Prop :=
  c.quality_passed = true ∧ c.requires_conf = false ∧
    (Cooldown.can_emit_pattern cfg s c.pattern c.symbol c.time).1 = true

instance (cfg : List (String × ℕ)) (s : Cooldown.State) (c : Candidate) :
    Decidable (reaches_defensive cfg s c) := by
  unfold reaches_defensive
  infer_instance

end SignalProc

namespace Adaptive

/-- Embedding of the MarketRegime enum of regime/types.py. -/
inductive MarketRegime where
  | TRENDING_UP
  | TRENDING_DOWN
  | RANGING
  | VOLATILE
  | QUIET
  | BREAKOUT
  | REVERSAL
  deriving DecidableEq, Repr

/-- The five adjustment factors computed by
AdaptiveRiskSystem._calculate_regime_adjustments. -/
structure Adjustments where
  signal_frequency : ℚ
  quality_threshold : ℚ
  concurrent_signals : ℚ
  timeout : ℚ
  circuit_breaker_sensitivity : ℚ
  deriving DecidableEq, Repr

/-- Multiplier application for one instrument regime inside the loop of
_calculate_regime_adjustments. -/
def regime_step (a : Adjustments) (r : MarketRegime) : Adjustments :=
  match r with
  | MarketRegime.TRENDING_UP | MarketRegime.TRENDING_DOWN =>
    { a with signal_frequency := a.signal_frequency * (12/10)
             quality_threshold := a.quality_threshold * (9/10)
             concurrent_signals := a.concurrent_signals * (13/10) }
  | MarketRegime.VOLATILE =>
    { a with signal_frequency := a.signal_frequency * (7/10)
             quality_threshold := a.quality_threshold * (13/10)
             concurrent_signals := a.concurrent_signals * (6/10)
             timeout := a.timeout * (8/10)
             circuit_breaker_sensitivity := a.circuit_breaker_sensitivity * (15/10) }
  | MarketRegime.QUIET =>
    { a with signal_frequency := a.signal_frequency * (5/10)
             quality_threshold := a.quality_threshold * (15/10)
             concurrent_signals := a.concurrent_signals * (5/10) }
  | MarketRegime.BREAKOUT =>
    { a with signal_frequency := a.signal_frequency * (15/10)
             quality_threshold := a.quality_threshold * (8/10)
             concurrent_signals := a.concurrent_signals * (15/10)
             timeout := a.timeout * (12/10) }
  | MarketRegime.REVERSAL =>
    { a with signal_frequency := a.signal_frequency * (8/10)
             quality_threshold := a.quality_threshold * (12/10)
             concurrent_signals := a.concurrent_signals * (8/10)
             circuit_breaker_sensitivity := a.circuit_breaker_sensitivity * (13/10) }
  | MarketRegime.RANGING => a

/-- Normalization clamp applied to every factor at the end of
_calculate_regime_adjustments. -/
def clamp_factor (x : ℚ) : ℚ :=
  max (3/10) (min 2 x)

/-- Embedding of _calculate_regime_adjustments: start from 1.0 factors,
apply the WDO multipliers then the DOL multipliers, apply the
divergent-regime correction when the two regimes differ, and clamp each
factor to the interval from 0.3 to 2.0. -/
def calculate_regime_adjustments (wdo dol : MarketRegime) : Adjustments :=
  let a0 : Adjustments :=
    { signal_frequency := 1, quality_threshold := 1, concurrent_signals := 1, timeout := 1, circuit_breaker_sensitivity := 1 }
  let a1 := regime_step a0 wdo
  let a2 := regime_step a1 dol
  let a3 :=
    if wdo ≠ dol then
      { a2 with quality_threshold := a2.quality_threshold * (11/10)
                concurrent_signals := a2.concurrent_signals * (9/10) }
    else a2
  { signal_frequency := clamp_factor a3.signal_frequency
    quality_threshold := clamp_factor a3.quality_threshold
    concurrent_signals := clamp_factor a3.concurrent_signals
    timeout := clamp_factor a3.timeout
    circuit_breaker_sensitivity := clamp_factor a3.circuit_breaker_sensitivity }

/-- Embedding of the Python int() conversion on a float: truncation toward
zero. -/
def py_int (q : ℚ) : ℤ :=
  if 0 ≤ q then ⌊q⌋ else -⌊-q⌋

/-- Embedding of the max_concurrent_signals update inside
AdaptiveRiskSystem._apply_regime_adjustments: the truncated product of the
base limit and the concurrent factor, floored at 1. -/
def apply_concurrent_adjustment (base : ℤ) (factor : ℚ) : ℤ :=
  max 1 (py_int (base * factor))

end Adaptive

namespace Cache

/-- Embedding of the per-symbol state of TradeMemoryCache: the bounded
deque contents in insertion order plus the eviction and addition
counters.  The element type is a parameter, as the deque stores arbitrary trade
objects. -/
structure CacheState (α : Type) where
  buffer : List α
  evictions : ℕ
  additions : ℕ
  deriving Repr

/-- Fresh cache state for a symbol. -/
def empty (α : Type) : CacheState α :=
  { buffer := [], evictions := 0, additions := 0 }

/-- Embedding of TradeMemoryCache.add_trades for one symbol: an empty batch
returns immediately; otherwise the eviction counter grows by the number of
stored trades that the bounded deque will displace, and the deque keeps the
last max_size elements of the old contents followed by the batch. -/
def add_trades (cap : ℕ) (s : CacheState α) (trades : List α) : CacheState α :=
  if trades.isEmpty then s
  else
    let cur := s.buffer.length
    let n := trades.length
    let evs := if cap < cur + n then min cur (cur + n - cap) else 0
    { buffer := (s.buffer ++ trades).drop (cur + n - cap)
      evictions := s.evictions + evs
      additions := s.additions + n }

/-- Embedding of TradeMemoryCache.get_recent_trades for one symbol: a copy
of the whole buffer when count covers it, else a copy of the last count
elements.  The Python slice with a negative index reproduces the whole
list when count is zero and the buffer is non-empty. -/
def get_recent_trades (s : CacheState α) (count : ℕ) : List α :=
  if s.buffer.length ≤ count then s.buffer
  else if count = 0 then s.buffer
  else s.buffer.drop (s.buffer.length - count)

end Cache

namespace Evaluator

open Risk

/-- Embedding of the additive score of
SignalEvaluator.evaluate_contextual_risk.  Inputs: the current system risk
level, the current drawdown percentage, the wall-clock hour, and the
cvd_roc detail when the signal carries one. -/
def contextual_score (system_risk : RiskLevel) (drawdown : ℚ) (hour : ℕ)
    (cvd_roc : Option ℚ) : ℕ :=
  let s1 : ℕ :=
    match system_risk with
    | RiskLevel.CRITICAL => 3
    | RiskLevel.HIGH => 2
    | RiskLevel.MEDIUM => 1
    | RiskLevel.LOW => 0
  let s2 := s1 + (if (3/2 : ℚ) < drawdown then 2 else 0)
  let s3 := s2 + (if hour < 10 ∨ 16 < hour then 1 else 0)
  s3 + (match cvd_roc with
        | some v => if (150 : ℚ) < |v| then 1 else 0
        | none => 0)

/-- Embedding of the score-to-level mapping at the end of
evaluate_contextual_risk. -/
def risk_level_of_score (score : ℕ) : RiskLevel :=
  if 4 ≤ score then RiskLevel.CRITICAL
  else if 3 ≤ score then RiskLevel.HIGH
  else if 2 ≤ score then RiskLevel.MEDIUM
  else RiskLevel.LOW

/-- Embedding of SignalEvaluator.evaluate_contextual_risk: the score and
the mapped level. -/
def evaluate_contextual_risk (system_risk : RiskLevel) (drawdown : ℚ)
    (hour : ℕ) (cvd_roc : Option ℚ) : ℕ × RiskLevel :=
  let score := contextual_score system_risk drawdown hour cvd_roc
  (score, risk_level_of_score score)

/-- Embedding of step 5 of RiskManager.evaluate_signal: the signal is
rejected on contextual grounds exactly when the contextual level is HIGH or
CRITICAL. -/
def context_rejects (level : RiskLevel) : Bool :=
  decide (level = RiskLevel.HIGH) || decide (level = RiskLevel.CRITICAL)

/-- Modelled from the spec wording of the claim: the additive score with
the drawdown point granted when the drawdown is within 25 percent of the
configured maximum drawdown, and the time-of-day point granted outside the
10:00 to 16:00 interval, with the time of day in minutes. -/
def claimed_contextual_score (system_risk : RiskLevel)
    (drawdown max_drawdown : ℚ) (tod_minutes : ℕ) (cvd_roc : Option ℚ) : ℕ :=
  let s1 : ℕ :=
    match system_risk with
    | RiskLevel.CRITICAL => 3
    | RiskLevel.HIGH => 2
    | RiskLevel.MEDIUM => 1
    | RiskLevel.LOW => 0
  let s2 := s1 + (if max_drawdown * (75/100) ≤ drawdown then 2 else 0)
  let s3 := s2 + (if tod_minutes < 600 ∨ 960 < tod_minutes then 1 else 0)
  s3 + (match cvd_roc with
        | some v => if (150 : ℚ) < |v| then 1 else 0
        | none => 0)

end Evaluator

namespace Confirmation

/-- Institutional-volume share over a window of trade volumes: the share of
total volume carried by trades whose volume lies in the institutional band
from 50 to 1000, zero for an empty total. -/
def institutional_share (volumes : List ℕ) : ℚ :=
  let total : ℕ := volumes.foldl (fun a v => a + v) 0
  let inst : ℕ := (volumes.filter (fun v => decide (50 ≤ v) && decide (v ≤ 1000))).foldl
    (fun a v => a + v) 0
  if 0 < total then (inst : ℚ) / (total : ℚ) else 0

/-- Embedding of
PatternConfirmationSystem._check_institutional_confirmation: the
persistence counter is advanced, an empty trade window denies, and the
pattern is confirmed when the institutional share reaches volume_threshold
and ten times the advanced counter reaches min_persistence.  Returns the
verdict and the advanced counter. -/
def check_institutional_confirmation (min_persistence : ℕ)
    (volume_threshold : ℚ) (persistence_checks : ℕ)
    (volumes : List ℕ) : Bool × ℕ :=
  let checks := persistence_checks + 1
  if volumes.isEmpty then (false, checks)
  else
    (decide (volume_threshold ≤ institutional_share volumes) &&
       decide (min_persistence ≤ checks * 10), checks)

/-- Wall-clock time elapsed at the k-th confirmation check when checks are
re-run every interval seconds, as scheduled by the tape reading service. -/
def elapsed_at_check (interval k : ℕ) : ℕ :=
  k * interval

end Confirmation

namespace Confluence

/-- Sample rule table for concrete runs: the first seed rule of the default
matrix. -/
def demo_rules : List ((String × String) × Rule) :=
  [(("ABSORCAO_COMPRADORA", "DEVENDO"), { acao := "COMPRA", confianca := 85/100 })]

/-- Sample grid for concrete runs: the strong support level at 5500. -/
def demo_levels : List CalculatedLevel :=
  [{ name := "DEVENDO", price := 5500 }]

/-- Signal produced by the sample confluence run. -/
def demo_signal : ConfluenceSignal :=
  { level_name := "DEVENDO", level_price := 5500, action := "COMPRA",
    rule_confidence := 85/100, confidence := 85/100, strength := 8,
    is_ptax := false }

end Confluence

/-!
Theorems.  Each claim of the specification is settled by one theorem below;
shared helper lemmas come first.
-/

/-- Both clamp bounds hold for every input of the normalization step. -/
theorem clamp_factor_bounds (x : ℚ) :
    3/10 ≤ Adaptive.clamp_factor x ∧ Adaptive.clamp_factor x ≤ 2 := by
  unfold Adaptive.clamp_factor
  exact ⟨le_max_left _ _, max_le (by norm_num) (min_le_left _ _)⟩

/-- C6: after every regime update, each of the five adaptive adjustment
factors computed by _calculate_regime_adjustments from the two instrument
regimes, including the divergent-regime correction, lies in the interval
from 0.3 to 2.0, for every combination of regimes. -/
theorem regime_adjustment_factors_bounded (wdo dol : Adaptive.MarketRegime) :
    (3/10 ≤ (Adaptive.calculate_regime_adjustments wdo dol).signal_frequency ∧
      (Adaptive.calculate_regime_adjustments wdo dol).signal_frequency ≤ 2) ∧
    (3/10 ≤ (Adaptive.calculate_regime_adjustments wdo dol).quality_threshold ∧
      (Adaptive.calculate_regime_adjustments wdo dol).quality_threshold ≤ 2) ∧
    (3/10 ≤ (Adaptive.calculate_regime_adjustments wdo dol).concurrent_signals ∧
      (Adaptive.calculate_regime_adjustments wdo dol).concurrent_signals ≤ 2) ∧
    (3/10 ≤ (Adaptive.calculate_regime_adjustments wdo dol).timeout ∧
      (Adaptive.calculate_regime_adjustments wdo dol).timeout ≤ 2) ∧
    (3/10 ≤ (Adaptive.calculate_regime_adjustments wdo dol).circuit_breaker_sensitivity ∧
      (Adaptive.calculate_regime_adjustments wdo dol).circuit_breaker_sensitivity ≤ 2) :=
  ⟨clamp_factor_bounds _, clamp_factor_bounds _, clamp_factor_bounds _,
    clamp_factor_bounds _, clamp_factor_bounds _⟩

/-- C10: for every base limit and every adjustment factor, the adjusted
max_concurrent_signals limit computed by _apply_regime_adjustments is at
least 1, so the exposure limit can never be adjusted down to 0. -/
theorem concurrent_limit_at_least_one (base : ℤ) (factor : ℚ)
    (h1 : 3/10 ≤ factor) (h2 : factor ≤ 2) :
    1 ≤ Adaptive.apply_concurrent_adjustment base factor :=
  le_max_left 1 _

/-- Witness for C10 at base 5 scaled down to base 1 with the smallest
factor: the truncated product is 0 and the adjusted limit is still 1. -/
theorem concurrent_limit_at_least_one_witness :
    (3/10 : ℚ) ≤ 3/10 ∧ (3/10 : ℚ) ≤ 2 ∧
    Adaptive.py_int (1 * (3/10)) = 0 ∧
    1 ≤ Adaptive.apply_concurrent_adjustment 1 (3/10) :=
  ⟨le_refl _, by norm_num, by unfold Adaptive.py_int; norm_num,
    concurrent_limit_at_least_one 1 (3/10) (le_refl _) (by norm_num)⟩

/-- C5 counterexample: the claim quantifies over every rule confidence in
the unit interval, but at confidence 0.96 the PTAX bonus lowers the
confidence to the 0.95 cap, a strict decrease. -/
theorem ptax_bonus_decrease_counterexample :
    (0 : ℚ) ≤ 24/25 ∧ (24/25 : ℚ) ≤ 1 ∧
    Confluence.apply_ptax_bonus true (24/25) < 24/25 := by
  refine ⟨by norm_num, by norm_num, ?_⟩
  unfold Confluence.apply_ptax_bonus
  norm_num

/-- C5 amended: for every rule confidence in the interval from 0 to 0.95,
the PTAX bonus never decreases the confidence and the result never exceeds
0.95; outside the default PTAX windows the confidence is unchanged. -/
theorem ptax_bonus_monotone_bounded (c : ℚ) (tod : ℕ)
    (h0 : 0 ≤ c) (h1 : c ≤ 95/100) :
    c ≤ Confluence.apply_ptax_bonus
        (Confluence.is_ptax_window Confluence.default_ptax_windows tod) c ∧
    Confluence.apply_ptax_bonus
        (Confluence.is_ptax_window Confluence.default_ptax_windows tod) c ≤ 95/100 ∧
    (Confluence.is_ptax_window Confluence.default_ptax_windows tod = false →
      Confluence.apply_ptax_bonus
        (Confluence.is_ptax_window Confluence.default_ptax_windows tod) c = c) := by
  cases hb : Confluence.is_ptax_window Confluence.default_ptax_windows tod with
  | false =>
    unfold Confluence.apply_ptax_bonus
    simpa using h1
  | true =>
    unfold Confluence.apply_ptax_bonus
    simp only [if_true]
    refine ⟨le_min (by linarith) h1, min_le_right _ _, by simp⟩

/-- Witness for C5 amended at confidence 0.9 inside the 10:05 PTAX
window. -/
theorem ptax_bonus_monotone_bounded_witness :
    (0 : ℚ) ≤ 9/10 ∧ (9/10 : ℚ) ≤ 95/100 ∧
    (9/10 : ℚ) ≤ Confluence.apply_ptax_bonus
        (Confluence.is_ptax_window Confluence.default_ptax_windows 36300) (9/10) ∧
    Confluence.apply_ptax_bonus
        (Confluence.is_ptax_window Confluence.default_ptax_windows 36300) (9/10) ≤ 95/100 :=
  ⟨by norm_num, by norm_num,
    (ptax_bonus_monotone_bounded (9/10) 36300 (by norm_num) (by norm_num)).1,
    (ptax_bonus_monotone_bounded (9/10) 36300 (by norm_num) (by norm_num)).2.1⟩

/-- C2, evaluated at the failing input: the frequency breaker is triggered
at time 0 with its default 300 second cooldown, and the next check runs one
day later, long past the cooldown.  The code computes the elapsed time with
the day-truncating seconds attribute, so the check leaves the breaker
active instead of resetting it, reports not all clear, and evaluate_signal
still rejects with CRITICAL risk and publishes no SIGNAL_APPROVED. -/
theorem breaker_day_wrap_keeps_active :
    300 ≤ 86400 - 0 ∧
    (Risk.check_all 86400 (Risk.trigger Risk.initial_breakers "frequency" 0)).all_clear = false ∧
    List.lookup "frequency"
        (Risk.check_all 86400 (Risk.trigger Risk.initial_breakers "frequency" 0)).breakers =
      some { active := true, triggered_at := some 0, cooldown_seconds := 300 } ∧
    Risk.evaluate_signal_breaker_gate 86400
        (Risk.trigger Risk.initial_breakers "frequency" 0)
        { approved := true, risk_level := Risk.RiskLevel.LOW, published_approved := true } =
      { approved := false, risk_level := Risk.RiskLevel.CRITICAL, published_approved := false } := by
  decide

/-- Institutional share of a window of two 100-lot trades: both lie in the
institutional band, so the share is 1. -/
theorem inst_share_eval : Confirmation.institutional_share [100, 100] = 1 := by
  unfold Confirmation.institutional_share
  norm_num [List.foldl, List.filter]

/-- C9, evaluated at the failing input: an INSTITUTIONAL_FOOTPRINT pattern
with the default min_persistence of 30 seconds and volume_threshold 0.3 is
confirmed at its third check, because the code multiplies the check counter
by a hardcoded 10 assuming 10-second check intervals; at the configured
default 1-second interval only about 3 seconds have elapsed, far below the
required 30 seconds of persistence. -/
theorem institutional_confirmation_early :
    Confirmation.check_institutional_confirmation 30 (3/10) 2 [100, 100] = (true, 3) ∧
    Confirmation.elapsed_at_check 1 3 = 3 ∧ (3 : ℕ) < 30 := by
  refine ⟨?_, rfl, by norm_num⟩
  unfold Confirmation.check_institutional_confirmation
  simp [inst_share_eval]
  norm_num

/-- Worked characterization of the score-to-level cascade and the step 5
rejection gate for every score. -/
theorem risk_level_of_score_iffs (n : ℕ) :
    (Evaluator.risk_level_of_score n = Risk.RiskLevel.CRITICAL ↔ 4 ≤ n) ∧
    (Evaluator.risk_level_of_score n = Risk.RiskLevel.HIGH ↔ n = 3) ∧
    (Evaluator.risk_level_of_score n = Risk.RiskLevel.MEDIUM ↔ n = 2) ∧
    (Evaluator.risk_level_of_score n = Risk.RiskLevel.LOW ↔ n ≤ 1) ∧
    (Evaluator.context_rejects (Evaluator.risk_level_of_score n) = true ↔ 3 ≤ n) := by
  unfold Evaluator.risk_level_of_score Evaluator.context_rejects
  split_ifs with h1 h2 h3 <;> simp <;> omega

/-- C8 counterexample: with a configured maximum drawdown of 4 percent and
a current drawdown of 1.6 percent at 12:00, the claimed score is 0 (the
drawdown is not within 25 percent of the maximum) but the code scores 2 and
returns MEDIUM, because its drawdown test is a hardcoded comparison against
1.5; and at 16:30 the claimed score is 1 (outside 10:00 to 16:00) but the
code scores 0, because it only tests the integer hour against 16. -/
theorem contextual_risk_spec_mismatch :
    Evaluator.claimed_contextual_score Risk.RiskLevel.LOW (8/5) 4 720 none = 0 ∧
    (720 / 60 : ℕ) = 12 ∧
    Evaluator.evaluate_contextual_risk Risk.RiskLevel.LOW (8/5) 12 none =
      (2, Risk.RiskLevel.MEDIUM) ∧
    Evaluator.claimed_contextual_score Risk.RiskLevel.LOW 0 2 990 none = 1 ∧
    (990 / 60 : ℕ) = 16 ∧
    Evaluator.evaluate_contextual_risk Risk.RiskLevel.LOW 0 16 none =
      (0, Risk.RiskLevel.LOW) := by
  refine ⟨?_, rfl, ?_, ?_, rfl, ?_⟩
  · unfold Evaluator.claimed_contextual_score
    norm_num
  · unfold Evaluator.evaluate_contextual_risk Evaluator.contextual_score
      Evaluator.risk_level_of_score
    norm_num
  · unfold Evaluator.claimed_contextual_score
    norm_num
  · unfold Evaluator.evaluate_contextual_risk Evaluator.contextual_score
      Evaluator.risk_level_of_score
    norm_num

/-- C8 amended: the contextual risk evaluation adds +3/+2/+1 for system
risk CRITICAL/HIGH/MEDIUM, +2 when the drawdown strictly exceeds the
hardcoded 1.5, +1 when the integer hour is below 10 or above 16, and +1
when the signal carries a cvd_roc whose absolute value exceeds 150; the
level is CRITICAL iff the score is at least 4, HIGH iff exactly 3, MEDIUM
iff exactly 2, LOW iff at most 1, and the risk manager contextual gate
rejects exactly when the level is HIGH or CRITICAL. -/
theorem contextual_risk_characterization (sr : Risk.RiskLevel) (dd : ℚ)
    (hour : ℕ) (cvd : Option ℚ) :
    Evaluator.evaluate_contextual_risk sr dd hour cvd =
      (Evaluator.contextual_score sr dd hour cvd,
       Evaluator.risk_level_of_score (Evaluator.contextual_score sr dd hour cvd)) ∧
    Evaluator.contextual_score sr dd hour cvd =
      (match sr with
       | Risk.RiskLevel.CRITICAL => 3
       | Risk.RiskLevel.HIGH => 2
       | Risk.RiskLevel.MEDIUM => 1
       | Risk.RiskLevel.LOW => 0) +
      (if (3/2 : ℚ) < dd then 2 else 0) +
      (if hour < 10 ∨ 16 < hour then 1 else 0) +
      (match cvd with
       | some v => if (150 : ℚ) < |v| then 1 else 0
       | none => 0) ∧
    ((Evaluator.evaluate_contextual_risk sr dd hour cvd).2 = Risk.RiskLevel.CRITICAL ↔
      4 ≤ Evaluator.contextual_score sr dd hour cvd) ∧
    ((Evaluator.evaluate_contextual_risk sr dd hour cvd).2 = Risk.RiskLevel.HIGH ↔
      Evaluator.contextual_score sr dd hour cvd = 3) ∧
    ((Evaluator.evaluate_contextual_risk sr dd hour cvd).2 = Risk.RiskLevel.MEDIUM ↔
      Evaluator.contextual_score sr dd hour cvd = 2) ∧
    ((Evaluator.evaluate_contextual_risk sr dd hour cvd).2 = Risk.RiskLevel.LOW ↔
      Evaluator.contextual_score sr dd hour cvd ≤ 1) ∧
    (Evaluator.context_rejects (Evaluator.evaluate_contextual_risk sr dd hour cvd).2 = true ↔
      3 ≤ Evaluator.contextual_score sr dd hour cvd) := by
  refine ⟨rfl, rfl, (risk_level_of_score_iffs _).1, (risk_level_of_score_iffs _).2.1,
    (risk_level_of_score_iffs _).2.2.1, (risk_level_of_score_iffs _).2.2.2.1,
    (risk_level_of_score_iffs _).2.2.2.2⟩

/-- A successful proximity check bounds the distance between the candidate
price and the matched level price by the tolerance. -/
theorem check_proximity_dist {tol : ℚ} {levels : List Confluence.CalculatedLevel}
    {price : ℚ} {lvl : Confluence.CalculatedLevel}
    (h : Confluence.check_proximity tol levels price = some lvl) :
    |price - lvl.price| ≤ tol := by
  unfold Confluence.check_proximity at h
  simpa using List.find?_some h

/-- A rule passing the validity gate satisfies both minimum force and
minimum confidence. -/
theorem is_valid_signal_spec {cfg : Confluence.Config} {r : Confluence.Rule}
    {strength : ℕ} (h : Confluence.is_valid_signal cfg (some r) strength = true) :
    cfg.minimum_force ≤ strength ∧ cfg.minimum_confidence ≤ r.confianca := by
  unfold Confluence.is_valid_signal at h
  simpa [Bool.and_eq_true, decide_eq_true_eq] using h

/-- A synthesized extreme rule requires extreme strength and is one of the
two SOFRER_2X and SOFGRE overrides at confidence 0.85. -/
theorem check_extreme_spec {cfg : Confluence.Config} {strength : ℕ}
    {level : String} {r : Confluence.Rule}
    (h : Confluence.check_extreme_conditions cfg strength level = some r) :
    cfg.extreme_force_threshold ≤ strength ∧ r.confianca = 85/100 ∧
    ((level = "SOFRER_2X" ∧ r.acao = "VENDA") ∨
     (level = "SOFGRE" ∧ r.acao = "COMPRA")) := by
  unfold Confluence.check_extreme_conditions at h
  split_ifs at h with h1 h2 h3
  · injection h with h4
    subst h4
    exact ⟨h1, rfl, Or.inl ⟨h2, rfl⟩⟩
  · injection h with h4
    subst h4
    exact ⟨h1, rfl, Or.inr ⟨h3, rfl⟩⟩

/-- Inversion of the build step: an emitted signal comes from a rule that
passed the validity gate and copies the level and rule fields. -/
theorem build_signal_spec {cfg : Confluence.Config} {windows : List (ℕ × ℕ)}
    {tod : ℕ} {lvl : Confluence.CalculatedLevel} {strength : ℕ}
    {rule : Option Confluence.Rule} {sig : Confluence.ConfluenceSignal}
    (h : Confluence.build_signal cfg windows tod lvl strength rule = some sig) :
    ∃ r, rule = some r ∧
      Confluence.is_valid_signal cfg (some r) strength = true ∧
      sig.level_name = lvl.name ∧ sig.level_price = lvl.price ∧
      sig.action = r.acao ∧ sig.rule_confidence = r.confianca ∧
      sig.strength = strength := by
  unfold Confluence.build_signal at h
  split_ifs at h with hv
  cases rule with
  | none => cases h
  | some r =>
    injection h with h4
    subst h4
    exact ⟨r, rfl, hv, rfl, rfl, rfl, rfl, rfl⟩

/-- C1: every CONFLUENCE signal emitted by analyze_confluence under the
default configuration has a candidate price within tolerancia_proximidade
(3.0) of the matched level price, strength at least 7, and an applied rule
confidence of at least 0.65 before any PTAX bonus; and when find_rule
matches no rule for the normalized (pattern, level) pair, the signal can
only come from the extreme override, requiring strength at least 9 and
level SOFRER_2X with action VENDA (sell) or SOFGRE with action COMPRA
(buy), at confidence 0.85. -/
theorem confluence_signal_validity
    (rules : List ((String × String) × Confluence.Rule))
    (levels : List Confluence.CalculatedLevel)
    (pattern direction : String) (price : ℚ) (strength tod : ℕ)
    (sig : Confluence.ConfluenceSignal)
    (h : Confluence.analyze_confluence Confluence.default_config rules levels
        Confluence.default_ptax_windows pattern price strength direction tod = some sig) :
    |price - sig.level_price| ≤ 3 ∧
    7 ≤ strength ∧
    (65/100 : ℚ) ≤ sig.rule_confidence ∧
    (Confluence.find_rule rules (Confluence.normalize_pattern_name pattern)
        sig.level_name direction = none →
      9 ≤ strength ∧ sig.rule_confidence = 85/100 ∧
      ((sig.level_name = "SOFRER_2X" ∧ sig.action = "VENDA") ∨
       (sig.level_name = "SOFGRE" ∧ sig.action = "COMPRA"))) := by
  unfold Confluence.analyze_confluence at h
  cases hp : Confluence.check_proximity
      Confluence.default_config.tolerancia_proximidade levels price with
  | none =>
    rw [hp] at h
    cases h
  | some lvl =>
    rw [hp] at h
    dsimp only at h
    cases hf : Confluence.find_rule rules
        (Confluence.normalize_pattern_name pattern) lvl.name direction with
    | some r =>
      rw [hf] at h
      obtain ⟨r0, hr0, hv, hln, hlp, hac, hrc, hst⟩ := build_signal_spec h
      injection hr0 with hr0
      subst hr0
      have hvs := is_valid_signal_spec hv
      refine ⟨?_, hvs.1, ?_, ?_⟩
      · rw [hlp]
        exact check_proximity_dist hp
      · rw [hrc]
        exact hvs.2
      · intro hnone
        rw [hln] at hnone
        rw [hf] at hnone
        cases hnone
    | none =>
      rw [hf] at h
      obtain ⟨r0, hr0, hv, hln, hlp, hac, hrc, hst⟩ := build_signal_spec h
      have hext := check_extreme_spec hr0
      have hvs := is_valid_signal_spec hv
      refine ⟨?_, hvs.1, ?_, ?_⟩
      · rw [hlp]
        exact check_proximity_dist hp
      · rw [hrc]
        exact hvs.2
      · intro _
        refine ⟨hext.1, ?_, ?_⟩
        · rw [hrc]
          exact hext.2.1
        · rw [hln, hac]
          exact hext.2.2

/-- Concrete confluence run: an ABSORCAO_COMPRADORA candidate at price 5500
with strength 8 against the demo grid produces the demo signal. -/
theorem confluence_demo_eval :
    Confluence.analyze_confluence Confluence.default_config Confluence.demo_rules
      Confluence.demo_levels Confluence.default_ptax_windows
      "ABSORCAO_COMPRADORA" 5500 8 "" 0 = some Confluence.demo_signal := by
  have hp : Confluence.check_proximity
      Confluence.default_config.tolerancia_proximidade Confluence.demo_levels 5500 =
      some { name := "DEVENDO", price := 5500 } := by
    unfold Confluence.check_proximity Confluence.demo_levels
    rw [List.find?_cons_of_pos]
    simp [Confluence.default_config]
  have hf : Confluence.find_rule Confluence.demo_rules
      (Confluence.normalize_pattern_name "ABSORCAO_COMPRADORA") "DEVENDO" "" =
      some { acao := "COMPRA", confianca := 85/100 } := rfl
  have hv : Confluence.is_valid_signal Confluence.default_config
      (some { acao := "COMPRA", confianca := 85/100 }) 8 = true := by
    unfold Confluence.is_valid_signal
    simp only [Bool.and_eq_true, decide_eq_true_eq]
    norm_num [Confluence.default_config]
  have hw : Confluence.is_ptax_window Confluence.default_ptax_windows 0 = false := by
    decide
  unfold Confluence.analyze_confluence
  rw [hp]
  dsimp only
  rw [hf]
  dsimp only
  unfold Confluence.build_signal
  rw [hv]
  dsimp only
  rw [hw]
  unfold Confluence.apply_ptax_bonus Confluence.demo_signal
  simp

/-- Witness for C1 on the concrete demo run. -/
theorem confluence_signal_validity_witness :
    |(5500 : ℚ) - Confluence.demo_signal.level_price| ≤ 3 ∧
    7 ≤ 8 ∧
    (65/100 : ℚ) ≤ Confluence.demo_signal.rule_confidence :=
  ⟨(confluence_signal_validity Confluence.demo_rules Confluence.demo_levels
      "ABSORCAO_COMPRADORA" "" 5500 8 0 Confluence.demo_signal confluence_demo_eval).1,
   (confluence_signal_validity Confluence.demo_rules Confluence.demo_levels
      "ABSORCAO_COMPRADORA" "" 5500 8 0 Confluence.demo_signal confluence_demo_eval).2.1,
   (confluence_signal_validity Confluence.demo_rules Confluence.demo_levels
      "ABSORCAO_COMPRADORA" "" 5500 8 0 Confluence.demo_signal confluence_demo_eval).2.2.1⟩

/-- C7: for every batch added to the trade cache under the capacity
invariant, the buffer size stays at or below the capacity; the eviction
counter grows by exactly the number of previously stored trades displaced
(the new buffer is the old buffer minus that FIFO prefix, followed by the
kept tail of the batch); and get_recent_trades returns a fresh copy of the
suffix of the buffer determined by the pre-call state alone, so later cache
mutations cannot alter a returned sequence. -/
theorem trade_cache_invariants {α : Type} (cap : ℕ) (s : Cache.CacheState α)
    (ts : List α) (h : s.buffer.length ≤ cap) :
    (Cache.add_trades cap s ts).buffer.length ≤ cap ∧
    (Cache.add_trades cap s ts).evictions =
      s.evictions + min s.buffer.length (s.buffer.length + ts.length - cap) ∧
    (Cache.add_trades cap s ts).buffer =
      s.buffer.drop (min s.buffer.length (s.buffer.length + ts.length - cap)) ++
        ts.drop (s.buffer.length + ts.length - cap - s.buffer.length) ∧
    (∀ count, 1 ≤ count →
      Cache.get_recent_trades s count = s.buffer.drop (s.buffer.length - count)) := by
  have hrec : ∀ count, 1 ≤ count →
      Cache.get_recent_trades s count = s.buffer.drop (s.buffer.length - count) := by
    intro count hc
    unfold Cache.get_recent_trades
    split_ifs with h1 h2
    · have : s.buffer.length - count = 0 := by omega
      rw [this, List.drop_zero]
    · omega
    · rfl
  unfold Cache.add_trades
  cases hts : ts.isEmpty with
  | true =>
    have hnil : ts = [] := List.isEmpty_iff.mp hts
    subst hnil
    simp only [if_true]
    refine ⟨h, ?_, ?_, hrec⟩
    · have h0 : s.buffer.length - cap = 0 := by omega
      simp [h0]
    · have h0 : s.buffer.length - cap = 0 := by omega
      simp [h0]
  | false =>
    simp only [hts, Bool.false_eq_true, if_false]
    refine ⟨?_, ?_, ?_, hrec⟩
    · simp only [List.length_drop, List.length_append]
      omega
    · split_ifs with h1
      · rfl
      · have : s.buffer.length + ts.length - cap = 0 := by omega
        simp [this]
    · rw [List.drop_append_eq_append_drop]
      congr 1
      rcases Nat.le_total (s.buffer.length + ts.length - cap) s.buffer.length with hle | hle
      · rw [min_eq_right hle]
      · rw [min_eq_left hle, List.drop_eq_nil_of_le hle, List.drop_eq_nil_of_le le_rfl]

/-- Witness for C7: a capacity 3 cache holding two trades receives a batch
of two; one stored trade is displaced, the eviction counter grows from 5 to
6, and get_recent_trades returns the single most recent trade. -/
theorem trade_cache_invariants_witness :
    (2 : ℕ) ≤ 3 ∧
    (Cache.add_trades 3 { buffer := [1, 2], evictions := 5, additions := 2 } [3, 4]).buffer = [2, 3, 4] ∧
    (Cache.add_trades 3 { buffer := [1, 2], evictions := 5, additions := 2 } [3, 4]).evictions = 6 ∧
    Cache.get_recent_trades { buffer := [1, 2], evictions := 5, additions := 2 } 1 = [2] :=
  ⟨by decide,
    (trade_cache_invariants 3 { buffer := [1, 2], evictions := 5, additions := 2 } [3, 4] (by decide)).2.2.1,
    (trade_cache_invariants 3 { buffer := [1, 2], evictions := 5, additions := 2 } [3, 4] (by decide)).2.1,
    (trade_cache_invariants 3 { buffer := [1, 2], evictions := 5, additions := 2 } [3, 4] (by decide)).2.2.2 1 (by decide)⟩

/-- C4: a candidate that reaches the defensive filter produces exactly one
of the SIGNAL_GENERATED display path and a MANIPULATION_DETECTED event,
never both and never neither, the former exactly when the book is safe; a
candidate dropped earlier by the quality, confirmation or cooldown stages
produces neither event.  The same exclusivity holds on the confirmed
pattern emission path of _emit_confirmed_pattern. -/
theorem defensive_filter_exclusivity (cfg : List (String × ℕ))
    (s : Cooldown.State) (c : SignalProc.Candidate) :
    (SignalProc.reaches_defensive cfg s c →
      ((SignalProc.process_one cfg s c).generated.length +
        (SignalProc.process_one cfg s c).manipulation_events.length = 1 ∧
       ((SignalProc.process_one cfg s c).generated = [c] ↔ c.safe = true) ∧
       ((SignalProc.process_one cfg s c).manipulation_events = [c] ↔ c.safe = false))) ∧
    (¬ SignalProc.reaches_defensive cfg s c →
      (SignalProc.process_one cfg s c).generated = [] ∧
      (SignalProc.process_one cfg s c).manipulation_events = []) ∧
    ((Cooldown.can_emit_pattern cfg s c.pattern c.symbol c.time).1 = true →
      (SignalProc.emit_confirmed_pattern cfg s c).generated.length +
        (SignalProc.emit_confirmed_pattern cfg s c).manipulation_events.length = 1) ∧
    ((Cooldown.can_emit_pattern cfg s c.pattern c.symbol c.time).1 = false →
      (SignalProc.emit_confirmed_pattern cfg s c).generated = [] ∧
      (SignalProc.emit_confirmed_pattern cfg s c).manipulation_events = []) := by
  unfold SignalProc.process_one SignalProc.emit_confirmed_pattern
    SignalProc.reaches_defensive
  rcases hcan : Cooldown.can_emit_pattern cfg s c.pattern c.symbol c.time with ⟨b, s1⟩
  cases hq : c.quality_passed <;> cases hrc : c.requires_conf <;>
    cases b <;> cases hsafe : c.safe <;>
    simp [hq, hrc, hcan, hsafe]

/-- Witness for C4: a fresh cooldown state and a quality-passing candidate
that reaches the defensive filter yields exactly one of the two events. -/
theorem defensive_filter_exclusivity_witness :
    (SignalProc.process_one [] Cooldown.initial
        { time := 0, symbol := "WDO", pattern := "PRESSAO_COMPRA",
          quality_passed := true, requires_conf := false, safe := true }).generated.length +
      (SignalProc.process_one [] Cooldown.initial
        { time := 0, symbol := "WDO", pattern := "PRESSAO_COMPRA",
          quality_passed := true, requires_conf := false, safe := true }).manipulation_events.length = 1 :=
  ((defensive_filter_exclusivity [] Cooldown.initial
      { time := 0, symbol := "WDO", pattern := "PRESSAO_COMPRA",
        quality_passed := true, requires_conf := false, safe := true }).1 (by decide)).1

/-- Dictionary update law: looking a key up after set_assoc yields the new
value at that key and is unchanged elsewhere. -/
theorem lookup_set_assoc (l : List (String × ℕ)) (k : String) (v : ℕ) (k' : String) :
    List.lookup k' (Cooldown.set_assoc l k v) =
      if k' = k then some v else List.lookup k' l := by
  induction l with
  | nil =>
    by_cases h : k' = k
    · subst h
      simp [Cooldown.set_assoc, List.lookup, beq_self_eq_true]
    · simp [Cooldown.set_assoc, List.lookup, beq_false_of_ne h, h]
  | cons p rest ih =>
    obtain ⟨k0, v0⟩ := p
    unfold Cooldown.set_assoc
    by_cases h0 : k0 = k
    · subst h0
      by_cases h1 : k' = k0
      · subst h1
        simp [List.lookup, beq_self_eq_true]
      · simp [List.lookup, beq_false_of_ne h1, h1]
    · simp only [if_neg h0]
      by_cases h1 : k' = k0
      · subst h1
        have h2 : ¬ k' = k := fun hc => h0 hc
        simp [List.lookup, beq_self_eq_true, h2]
      · simp [List.lookup, beq_false_of_ne h1, ih]

/-- Pass characterization of the cooldown check: it passes exactly when no
time is recorded under the key, or the day-truncated elapsed time since
the recorded time reaches the cooldown. -/
theorem can_emit_fst_iff (cfg : List (String × ℕ)) (s : Cooldown.State)
    (pattern symbol : String) (now : ℕ) :
    (Cooldown.can_emit_pattern cfg s pattern symbol now).1 = true ↔
      ∀ last, List.lookup (Cooldown.key symbol pattern) s.last_pattern_time = some last →
        Cooldown.cooldown_for cfg pattern ≤ py_timedelta_seconds now last := by
  unfold Cooldown.can_emit_pattern
  cases hl : List.lookup (Cooldown.key symbol pattern) s.last_pattern_time with
  | none => simp
  | some last =>
    dsimp only
    split_ifs with hcd
    · simp only [true_iff]
      intro l hll
      injection hll with hll
      subst hll
      exact hcd
    · simp only [Bool.false_eq_true, false_iff, not_forall]
      exact ⟨last, rfl, hcd⟩

/-- State effect of the cooldown check: a pass re-records the current time
under the key, a failure leaves the recorded times unchanged. -/
theorem can_emit_state (cfg : List (String × ℕ)) (s : Cooldown.State)
    (pattern symbol : String) (now : ℕ) :
    ((Cooldown.can_emit_pattern cfg s pattern symbol now).1 = true →
      (Cooldown.can_emit_pattern cfg s pattern symbol now).2.last_pattern_time =
        Cooldown.set_assoc s.last_pattern_time (Cooldown.key symbol pattern) now) ∧
    ((Cooldown.can_emit_pattern cfg s pattern symbol now).1 = false →
      (Cooldown.can_emit_pattern cfg s pattern symbol now).2.last_pattern_time =
        s.last_pattern_time) := by
  unfold Cooldown.can_emit_pattern
  cases hl : List.lookup (Cooldown.key symbol pattern) s.last_pattern_time with
  | none => simp
  | some last =>
    dsimp only
    split_ifs with hcd <;> simp

/-- A candidate that ends in an event (emission or manipulation) passed the
cooldown check and re-recorded its key time. -/
theorem process_one_event_state (cfg : List (String × ℕ)) (s : Cooldown.State)
    (c : SignalProc.Candidate)
    (h : (SignalProc.process_one cfg s c).outcome = SignalProc.Outcome.emitted ∨
      (SignalProc.process_one cfg s c).outcome = SignalProc.Outcome.manipulation) :
    (SignalProc.process_one cfg s c).state.last_pattern_time =
      Cooldown.set_assoc s.last_pattern_time
        (Cooldown.key c.symbol c.pattern) c.time ∧
    (Cooldown.can_emit_pattern cfg s c.pattern c.symbol c.time).1 = true := by
  unfold SignalProc.process_one at h ⊢
  rcases hcan : Cooldown.can_emit_pattern cfg s c.pattern c.symbol c.time with ⟨b, s1⟩
  have hstate := can_emit_state cfg s c.pattern c.symbol c.time
  rw [hcan] at hstate
  cases hq : c.quality_passed <;> cases hrc : c.requires_conf <;>
    cases b <;> cases hsafe : c.safe <;>
    simp [hq, hrc, hcan, hsafe] at h ⊢ <;>
    exact hstate.1 rfl

/-- A candidate dropped before the defensive stage leaves all recorded
cooldown times unchanged. -/
theorem process_one_quiet_state (cfg : List (String × ℕ)) (s : Cooldown.State)
    (c : SignalProc.Candidate)
    (h : ¬ ((SignalProc.process_one cfg s c).outcome = SignalProc.Outcome.emitted ∨
      (SignalProc.process_one cfg s c).outcome = SignalProc.Outcome.manipulation)) :
    (SignalProc.process_one cfg s c).state.last_pattern_time = s.last_pattern_time := by
  unfold SignalProc.process_one at h ⊢
  rcases hcan : Cooldown.can_emit_pattern cfg s c.pattern c.symbol c.time with ⟨b, s1⟩
  have hstate := can_emit_state cfg s c.pattern c.symbol c.time
  rw [hcan] at hstate
  cases hq : c.quality_passed <;> cases hrc : c.requires_conf <;>
    cases b <;> cases hsafe : c.safe <;>
    simp [hq, hrc, hcan, hsafe] at h ⊢ <;>
    exact hstate.2 rfl

/-- Unfolding step for the emission times of a trace. -/
theorem emission_times_cons (cfg : List (String × ℕ)) (sym pat : String)
    (s : Cooldown.State) (c : SignalProc.Candidate) (cs : List SignalProc.Candidate) :
    SignalProc.emission_times cfg sym pat s (c :: cs) =
      (if (SignalProc.process_one cfg s c).outcome = SignalProc.Outcome.emitted ∧
          c.symbol = sym ∧ c.pattern = pat
       then c.time :: SignalProc.emission_times cfg sym pat
              (SignalProc.process_one cfg s c).state cs
       else SignalProc.emission_times cfg sym pat
              (SignalProc.process_one cfg s c).state cs) := by
  have htrace : SignalProc.process_trace cfg s (c :: cs) =
      (c, (SignalProc.process_one cfg s c).outcome) ::
        SignalProc.process_trace cfg (SignalProc.process_one cfg s c).state cs := rfl
  unfold SignalProc.emission_times
  rw [htrace]
  by_cases h1 : (SignalProc.process_one cfg s c).outcome = SignalProc.Outcome.emitted <;>
    by_cases h2 : c.symbol = sym <;> by_cases h3 : c.pattern = pat <;>
    simp [h1, h2, h3, List.filter_cons]

/-- Core induction: along any time-monotone candidate trace, consecutive
emissions for a (symbol, pattern) key are separated by at least the
configured cooldown, and the first emission respects any initially
recorded time. -/
theorem emission_chain_aux (cfg : List (String × ℕ)) (sym pat : String) :
    ∀ (cs : List SignalProc.Candidate) (s : Cooldown.State),
    List.Pairwise (fun a b => a.time ≤ b.time) cs →
    (∀ last, List.lookup (Cooldown.key sym pat) s.last_pattern_time = some last →
      ∀ c ∈ cs, last ≤ c.time) →
    List.Chain' (fun t1 t2 => t1 + Cooldown.cooldown_for cfg pat ≤ t2)
      (SignalProc.emission_times cfg sym pat s cs) ∧
    (∀ last, List.lookup (Cooldown.key sym pat) s.last_pattern_time = some last →
      ∀ e, (SignalProc.emission_times cfg sym pat s cs).head? = some e →
        last + Cooldown.cooldown_for cfg pat ≤ e) := by
  intro cs
  induction cs with
  | nil =>
    intro s _ _
    constructor
    · simp [SignalProc.emission_times, SignalProc.process_trace]
    · intro last _ e he
      simp [SignalProc.emission_times, SignalProc.process_trace] at he
  | cons c cs ih =>
    intro s hmono hcompat
    obtain ⟨hm1, hm2⟩ := List.pairwise_cons.mp hmono
    by_cases hev : (SignalProc.process_one cfg s c).outcome = SignalProc.Outcome.emitted ∨
        (SignalProc.process_one cfg s c).outcome = SignalProc.Outcome.manipulation
    · obtain ⟨hset, hpass⟩ := process_one_event_state cfg s c hev
      have hcompat2 : ∀ last, List.lookup (Cooldown.key sym pat)
          (SignalProc.process_one cfg s c).state.last_pattern_time = some last →
          ∀ c2 ∈ cs, last ≤ c2.time := by
        intro last hl c2 hc2
        rw [hset, lookup_set_assoc] at hl
        by_cases hk : Cooldown.key sym pat = Cooldown.key c.symbol c.pattern
        · rw [if_pos hk] at hl
          injection hl with hl
          subst hl
          exact hm1 c2 hc2
        · rw [if_neg hk] at hl
          exact hcompat last hl c2 (List.mem_cons_of_mem _ hc2)
      have IH := ih (SignalProc.process_one cfg s c).state hm2 hcompat2
      rw [emission_times_cons]
      by_cases hfull : (SignalProc.process_one cfg s c).outcome =
          SignalProc.Outcome.emitted ∧ c.symbol = sym ∧ c.pattern = pat
      · rw [if_pos hfull]
        obtain ⟨hfe, hfs, hfp⟩ := hfull
        have hkey : Cooldown.key sym pat = Cooldown.key c.symbol c.pattern := by
          rw [hfs, hfp]
        have hlook : List.lookup (Cooldown.key sym pat)
            (SignalProc.process_one cfg s c).state.last_pattern_time = some c.time := by
          rw [hset, lookup_set_assoc, if_pos hkey]
        constructor
        · rw [List.chain'_cons']
          constructor
          · intro b hb
            exact IH.2 c.time hlook b (Option.mem_def.mp hb)
          · exact IH.1
        · intro last hl e he
          simp only [List.head?_cons, Option.some.injEq] at he
          subst he
          have hiff := (can_emit_fst_iff cfg s c.pattern c.symbol c.time).mp hpass
          rw [hkey] at hl
          have h1 := hiff last hl
          rw [hfp] at h1
          have h2 : last ≤ c.time := by
            rw [← hkey] at hl
            exact hcompat last hl c (List.mem_cons_self _ _)
          have h3 : py_timedelta_seconds c.time last ≤ c.time - last :=
            Nat.mod_le _ _
          unfold py_timedelta_seconds at h1 h3
          omega
      · rw [if_neg hfull]
        refine ⟨IH.1, ?_⟩
        intro last hl e he
        by_cases hk : Cooldown.key sym pat = Cooldown.key c.symbol c.pattern
        · have hlook : List.lookup (Cooldown.key sym pat)
              (SignalProc.process_one cfg s c).state.last_pattern_time = some c.time := by
            rw [hset, lookup_set_assoc, if_pos hk]
          have h1 := IH.2 c.time hlook e he
          have h2 : last ≤ c.time := hcompat last hl c (List.mem_cons_self _ _)
          omega
        · have hlook : List.lookup (Cooldown.key sym pat)
              (SignalProc.process_one cfg s c).state.last_pattern_time = some last := by
            rw [hset, lookup_set_assoc, if_neg hk]
            exact hl
          exact IH.2 last hlook e he
    · have hqs := process_one_quiet_state cfg s c hev
      have hcompat2 : ∀ last, List.lookup (Cooldown.key sym pat)
          (SignalProc.process_one cfg s c).state.last_pattern_time = some last →
          ∀ c2 ∈ cs, last ≤ c2.time := by
        intro last hl c2 hc2
        rw [hqs] at hl
        exact hcompat last hl c2 (List.mem_cons_of_mem _ hc2)
      have IH := ih (SignalProc.process_one cfg s c).state hm2 hcompat2
      rw [emission_times_cons]
      have hne : ¬ ((SignalProc.process_one cfg s c).outcome =
          SignalProc.Outcome.emitted ∧ c.symbol = sym ∧ c.pattern = pat) :=
        fun hc => hev (Or.inl hc.1)
      rw [if_neg hne]
      refine ⟨IH.1, ?_⟩
      intro last hl e he
      have hlook : List.lookup (Cooldown.key sym pat)
          (SignalProc.process_one cfg s c).state.last_pattern_time = some last := by
        rw [hqs]
        exact hl
      exact IH.2 last hlook e he

/-- C3 amended: the cooldown filter passes a candidate iff the
day-truncated elapsed time since the last passed cooldown check for the
symbol_pattern key (updated on every pass, whether or not the candidate is
ultimately emitted) is at least the configured cooldown; and along every
time-monotone trace, successive SIGNAL_GENERATED emissions for the same
(instrument, pattern) pair are separated by at least cooldown(P)
seconds. -/
theorem cooldown_pass_and_spacing (cfg : List (String × ℕ))
    (symbol pattern : String) (s : Cooldown.State) (now : ℕ)
    (cs : List SignalProc.Candidate)
    (hmono : List.Pairwise (fun a b => a.time ≤ b.time) cs)
    (hcompat : ∀ last, List.lookup (Cooldown.key symbol pattern)
        s.last_pattern_time = some last → ∀ c ∈ cs, last ≤ c.time) :
    ((Cooldown.can_emit_pattern cfg s pattern symbol now).1 = true ↔
      ∀ last, List.lookup (Cooldown.key symbol pattern) s.last_pattern_time = some last →
        Cooldown.cooldown_for cfg pattern ≤ py_timedelta_seconds now last) ∧
    List.Chain' (fun t1 t2 => t1 + Cooldown.cooldown_for cfg pattern ≤ t2)
      (SignalProc.emission_times cfg symbol pattern s cs) :=
  ⟨can_emit_fst_iff cfg s pattern symbol now,
   (emission_chain_aux cfg symbol pattern cs s hmono hcompat).1⟩

/-- C3 counterexample: in the first trace a signal is emitted at time 0
and a second candidate arrives one day later, 86400 seconds past the last
emission and far beyond the 30 second default cooldown, yet it is blocked,
because the day-truncated elapsed time is 0; in the second trace the first
candidate is dropped by the defensive filter, so no emission ever happens,
yet the candidate 10 seconds later is still blocked, because the timer was
set by the passed check rather than by an emission.  Both refute the
claimed equivalence with elapsed time since the last successful
emission. -/
theorem cooldown_emission_iff_counterexample :
    SignalProc.process_trace [] Cooldown.initial
      [{ time := 0, symbol := "WDO", pattern := "P",
         quality_passed := true, requires_conf := false, safe := true },
       { time := 86400, symbol := "WDO", pattern := "P",
         quality_passed := true, requires_conf := false, safe := true }] =
      [({ time := 0, symbol := "WDO", pattern := "P",
          quality_passed := true, requires_conf := false, safe := true },
        SignalProc.Outcome.emitted),
       ({ time := 86400, symbol := "WDO", pattern := "P",
          quality_passed := true, requires_conf := false, safe := true },
        SignalProc.Outcome.dropped_cooldown)] ∧
    Cooldown.cooldown_for [] "P" ≤ 86400 - 0 ∧
    SignalProc.process_trace [] Cooldown.initial
      [{ time := 0, symbol := "WDO", pattern := "P",
         quality_passed := true, requires_conf := false, safe := false },
       { time := 10, symbol := "WDO", pattern := "P",
         quality_passed := true, requires_conf := false, safe := true }] =
      [({ time := 0, symbol := "WDO", pattern := "P",
          quality_passed := true, requires_conf := false, safe := false },
        SignalProc.Outcome.manipulation),
       ({ time := 10, symbol := "WDO", pattern := "P",
          quality_passed := true, requires_conf := false, safe := true },
        SignalProc.Outcome.dropped_cooldown)] := by
  decide

/-- Witness for C3 amended on a concrete two-candidate trace with
emissions 40 seconds apart against the default 30 second cooldown. -/
theorem cooldown_pass_and_spacing_witness :
    List.Chain' (fun t1 t2 => t1 + Cooldown.cooldown_for [] "P" ≤ t2)
      (SignalProc.emission_times [] "WDO" "P" Cooldown.initial
        [{ time := 0, symbol := "WDO", pattern := "P",
           quality_passed := true, requires_conf := false, safe := true },
         { time := 40, symbol := "WDO", pattern := "P",
           quality_passed := true, requires_conf := false, safe := true }]) :=
  (cooldown_pass_and_spacing [] "WDO" "P" Cooldown.initial 0
    [{ time := 0, symbol := "WDO", pattern := "P",
       quality_passed := true, requires_conf := false, safe := true },
     { time := 40, symbol := "WDO", pattern := "P",
       quality_passed := true, requires_conf := false, safe := true }]
    (by decide)
    (fun last hl => Option.noConfusion hl)).2
